import Mathlib

/-!
Verification development for the browser-metrics core of
`packages/browser-utils/src/metrics/browserMetrics.ts`.

The TypeScript source is shallowly embedded: JS numbers become `ℚ`
(the claims only concern ordered-field arithmetic and comparisons),
the module-level mutable session state (`_performanceCursor`,
`_measurements`, `_lcpEntry`, `_clsEntry`) becomes an explicit
`SessionState` threaded through `addPerformanceEntries`, and the
external tracing collaborators (`startAndEndSpan`, `setMeasurement`,
`span.setAttribute`) become lists of emitted spans / measurement
writes / attribute writes collected in an `Output` record.  Host
capabilities that live outside this file's source (the Performance
API, `getNavigationEntry`, the visibility watcher, `parseUrl`,
`htmlTreeAsString`, `getComponentName`, the navigator object) are
modelled as an explicit `Env` of inputs, exactly as the spec's §6
lists them as external interfaces.
-/

namespace BrowserMetrics

/-- Conversion from milliseconds to seconds (`msToSec` in `metrics/utils.ts`). -/
def msToSec (time : ℚ) : ℚ := time / 1000

/-- The `SEMANTIC_ATTRIBUTE_SENTRY_ORIGIN` attribute key from `@sentry/core`. -/
def SEMANTIC_ATTRIBUTE_SENTRY_ORIGIN : String := "sentry.origin"

/-- The `MAX_INT_AS_BYTES = 2147483647` sanity ceiling from `browserMetrics.ts`. -/
def MAX_INT_AS_BYTES : ℚ := 2147483647

/-- Scalar values storable as span attributes. -/
inductive AttrValue where
  | str (s : String)
  | num (q : ℚ)
  | bool (b : Bool)
deriving DecidableEq

/-- A `{ value, unit }` measurement as stored in `_measurements`. -/
structure Measurement where
  value : ℚ
  unit : String
deriving DecidableEq

/-- A performance entry, embedded as one flat record over the fields the
source reads dynamically from `Record<string, any>`.  Absent fields are
`none` (JS `undefined`). -/
structure PerfEntry where
  entryType : String
  name : String
  startTime : ℚ := 0
  duration : ℚ := 0
  initiatorType : Option String := none
  transferSize : Option ℚ := none
  encodedBodySize : Option ℚ := none
  decodedBodySize : Option ℚ := none
  renderBlockingStatus : Option String := none
  deliveryType : Option String := none
  unloadEventStart : Option ℚ := none
  unloadEventEnd : Option ℚ := none
  redirectStart : Option ℚ := none
  redirectEnd : Option ℚ := none
  domContentLoadedEventStart : Option ℚ := none
  domContentLoadedEventEnd : Option ℚ := none
  loadEventStart : Option ℚ := none
  loadEventEnd : Option ℚ := none
  connectStart : Option ℚ := none
  connectEnd : Option ℚ := none
  secureConnectionStart : Option ℚ := none
  fetchStart : Option ℚ := none
  domainLookupStart : Option ℚ := none
  domainLookupEnd : Option ℚ := none
  requestStart : Option ℚ := none
  responseStart : Option ℚ := none
  responseEnd : Option ℚ := none
  target : Option String := none
deriving DecidableEq

/-- Dynamic field read `entry[key]` for the navigation-timing keys used by
`_addPerformanceNavigationTiming` and `_addRequest`. -/
def PerfEntry.field (e : PerfEntry) (key : String) : Option ℚ :=
  if key = "unloadEventStart" then e.unloadEventStart
  else if key = "unloadEventEnd" then e.unloadEventEnd
  else if key = "redirectStart" then e.redirectStart
  else if key = "redirectEnd" then e.redirectEnd
  else if key = "domContentLoadedEventStart" then e.domContentLoadedEventStart
  else if key = "domContentLoadedEventEnd" then e.domContentLoadedEventEnd
  else if key = "loadEventStart" then e.loadEventStart
  else if key = "loadEventEnd" then e.loadEventEnd
  else if key = "connectStart" then e.connectStart
  else if key = "connectEnd" then e.connectEnd
  else if key = "secureConnectionStart" then e.secureConnectionStart
  else if key = "fetchStart" then e.fetchStart
  else if key = "domainLookupStart" then e.domainLookupStart
  else if key = "domainLookupEnd" then e.domainLookupEnd
  else if key = "requestStart" then e.requestStart
  else if key = "responseStart" then e.responseStart
  else if key = "responseEnd" then e.responseEnd
  else none

/-- A finished (already-ended) synthetic span, as produced through
`startAndEndSpan` / `startInactiveSpan(...).end(...)`. -/
structure SyntheticSpan where
  name : String
  op : String
  startTimestamp : ℚ
  endTimestamp : ℚ
  attributes : List (String × AttrValue)
deriving DecidableEq

/-- The navigation entry returned by `getNavigationEntry()` (the two fields
this module reads). -/
structure NavEntry where
  requestStart : ℚ
  responseStart : ℚ
deriving DecidableEq

/-- The retained raw LCP entry (`_lcpEntry`); DOM nodes are abstract strings. -/
structure LcpEntry where
  element : Option String := none
  id : Option String := none
  url : Option String := none
  size : ℚ := 0
deriving DecidableEq

/-- The retained raw CLS entry (`_clsEntry`); each source node is an abstract
string rendered through the host `htmlTreeAsString`. -/
structure ClsEntry where
  sources : Option (List String) := none
deriving DecidableEq

/-- Host environment: everything `browserMetrics.ts` consumes from outside
(the Performance API gate, `browserPerformanceTimeOrigin`,
`getNavigationEntry`, the visibility watcher, `getActivationStart`, the
navigator/connection object, `WINDOW.location.origin`, and the URL / DOM
helpers from `@sentry/utils`). -/
structure Env where
  perfAvailable : Bool := true
  timeOriginMs : ℚ := 0
  navEntry : Option NavEntry := none
  firstHiddenTime : ℚ := 0
  activationStart : ℚ := 0
  navigatorPresent : Bool := false
  connectionPresent : Bool := false
  connectionEffectiveType : Option String := none
  connectionType : Option String := none
  connectionRtt : Option ℚ := none
  deviceMemory : Option ℚ := none
  hardwareConcurrency : Option ℚ := none
  locationOrigin : String := ""
  parseProtocol : String → Option String := fun _ => none
  parseHost : String → Option String := fun _ => none
  htmlTree : Option String → String := fun _ => ""
  componentName : Option String → Option String := fun _ => none

/-- The session-scoped mutable module state: `_performanceCursor`,
`_measurements`, `_lcpEntry`, `_clsEntry`. -/
structure SessionState where
  cursor : Nat := 0
  measurements : List (String × Measurement) := []
  lcpEntry : Option LcpEntry := none
  clsEntry : Option ClsEntry := none
deriving DecidableEq

/-- Observable effects of one `addPerformanceEntries` call: spans emitted via
`startAndEndSpan`, `setMeasurement(name, value, unit)` calls, and
`span.setAttribute(key, value)` calls, in call order. -/
structure Output where
  spans : List SyntheticSpan := []
  measurementWrites : List (String × ℚ × String) := []
  attributeWrites : List (String × AttrValue) := []
deriving DecidableEq

/-- JS-object style insert-or-overwrite on the `_measurements` record:
updating an existing key keeps its position, a new key is appended. -/
def setM : List (String × Measurement) → String → Measurement → List (String × Measurement)
  | [], k, v => [(k, v)]
  | (k₀, v₀) :: rest, k, v =>
    if k₀ = k then (k, v) :: rest else (k₀, v₀) :: setM rest k v

/-- Key lookup `_measurements[k]`. -/
def getM : List (String × Measurement) → String → Option Measurement
  | [], _ => none
  | (k₀, v₀) :: rest, k => if k₀ = k then some v₀ else getM rest k

/-- Key deletion, `delete _measurements[k]`. -/
def delM (m : List (String × Measurement)) (k : String) : List (String × Measurement) :=
  m.filter (fun p => p.1 != k)

/-- Key presence test, `k in _measurements`. -/
def memM (m : List (String × Measurement)) (k : String) : Bool :=
  m.any (fun p => p.1 == k)

/-- The `requestStart` of `getNavigationEntry()`, defaulting to `0` when there is
no navigation entry (`navEntry ? navEntry.requestStart : 0`). -/
def navRequestStart (env : Env) : ℚ :=
  match env.navEntry with
  | some nav => nav.requestStart
  | none => 0

/-- Embedding of `_addMeasureSpans` (browserMetrics.ts lines 404-443): emits one span for a
mark/paint/measure entry, pinning the start to the navigation request start
and flagging the span when the pin changed the timestamp. -/
def _addMeasureSpans (env : Env) (entry : PerfEntry)
    (startTime duration timeOrigin : ℚ) : SyntheticSpan :=
  let requestTime := msToSec (navRequestStart env)
  let measureStartTimestamp := timeOrigin + max startTime requestTime
  let startTimeStamp := timeOrigin + startTime
  let measureEndTimestamp := startTimeStamp + duration
  let attrs : List (String × AttrValue) :=
    [(SEMANTIC_ATTRIBUTE_SENTRY_ORIGIN, AttrValue.str "auto.resource.browser.metrics")]
  let attrs :=
    if measureStartTimestamp ≠ startTimeStamp then
      attrs ++ [("sentry.browser.measure_happened_before_request", AttrValue.bool true),
                ("sentry.browser.measure_start_time", AttrValue.num measureStartTimestamp)]
    else attrs
  { name := entry.name
    op := entry.entryType
    startTimestamp := measureStartTimestamp
    endTimestamp := measureEndTimestamp
    attributes := attrs }

/-- Embedding of `_addPerformanceNavigationTiming`: one sub-interval span of a navigation
entry, emitted only when both its start and end fields are truthy. -/
def _addPerformanceNavigationTiming (entry : PerfEntry) (event : String)
    (timeOrigin : ℚ) (name : Option String) (eventEnd : Option String) :
    Option SyntheticSpan :=
  let endv :=
    match eventEnd with
    | some key => entry.field key
    | none => entry.field (event ++ "End")
  let start := entry.field (event ++ "Start")
  if start.getD 0 = 0 ∨ endv.getD 0 = 0 then none
  else
    some { name := entry.name
           op := "browser." ++ name.getD event
           startTimestamp := timeOrigin + msToSec (start.getD 0)
           endTimestamp := timeOrigin + msToSec (endv.getD 0)
           attributes := [(SEMANTIC_ATTRIBUTE_SENTRY_ORIGIN,
                           AttrValue.str "auto.ui.browser.metrics")] }

/-- Embedding of `_addRequest`: browser.request / browser.response spans, emitted only when
`entry.responseEnd` is truthy. -/
def _addRequest (entry : PerfEntry) (timeOrigin : ℚ) : List SyntheticSpan :=
  let requestStartTimestamp := timeOrigin + msToSec (entry.requestStart.getD 0)
  let responseEndTimestamp := timeOrigin + msToSec (entry.responseEnd.getD 0)
  let responseStartTimestamp := timeOrigin + msToSec (entry.responseStart.getD 0)
  if entry.responseEnd.getD 0 ≠ 0 then
    [{ name := entry.name
       op := "browser.request"
       startTimestamp := requestStartTimestamp
       endTimestamp := responseEndTimestamp
       attributes := [(SEMANTIC_ATTRIBUTE_SENTRY_ORIGIN,
                       AttrValue.str "auto.ui.browser.metrics")] },
     { name := entry.name
       op := "browser.response"
       startTimestamp := responseStartTimestamp
       endTimestamp := responseEndTimestamp
       attributes := [(SEMANTIC_ATTRIBUTE_SENTRY_ORIGIN,
                       AttrValue.str "auto.ui.browser.metrics")] }]
  else []

/-- Embedding of `_addNavigationSpans`: the fixed sequence of navigation sub-interval spans. -/
def _addNavigationSpans (entry : PerfEntry) (timeOrigin : ℚ) : List SyntheticSpan :=
  (["unloadEvent", "redirect", "domContentLoadedEvent", "loadEvent", "connect"].filterMap
    (fun event => _addPerformanceNavigationTiming entry event timeOrigin none none))
  ++ (_addPerformanceNavigationTiming entry "secureConnection" timeOrigin
        (some "TLS/SSL") (some "connectEnd")).toList
  ++ (_addPerformanceNavigationTiming entry "fetch" timeOrigin
        (some "cache") (some "domainLookupStart")).toList
  ++ (_addPerformanceNavigationTiming entry "domainLookup" timeOrigin
        (some "DNS") none).toList
  ++ _addRequest entry timeOrigin

/-- Embedding of `setResourceEntrySizeData`: size attributes are added only when present
and below the `2^31 - 1` sanity ceiling. -/
def setResourceEntrySizeData (attrs : List (String × AttrValue)) (entryVal : Option ℚ)
    (dataKey : String) : List (String × AttrValue) :=
  match entryVal with
  | some v => if v < MAX_INT_AS_BYTES then attrs ++ [(dataKey, AttrValue.num v)] else attrs
  | none => attrs

/-- Embedding of `_addResourceSpans` (browserMetrics.ts lines 520-571): suppresses
fetch/xhr-initiated resources, otherwise emits one resource span. -/
def _addResourceSpans (env : Env) (entry : PerfEntry) (resourceUrl : String)
    (startTime duration timeOrigin : ℚ) : Option SyntheticSpan :=
  if entry.initiatorType = some "xmlhttprequest" ∨ entry.initiatorType = some "fetch" then
    none
  else
    let attrs : List (String × AttrValue) :=
      [(SEMANTIC_ATTRIBUTE_SENTRY_ORIGIN, AttrValue.str "auto.resource.browser.metrics")]
    let attrs := setResourceEntrySizeData attrs entry.transferSize "http.response_transfer_size"
    let attrs := setResourceEntrySizeData attrs entry.encodedBodySize "http.response_content_length"
    let attrs := setResourceEntrySizeData attrs entry.decodedBodySize "http.decoded_response_content_length"
    let attrs :=
      match entry.deliveryType with
      | some dt => attrs ++ [("http.response_delivery_type",
                              AttrValue.str (if dt = "" then "default" else dt))]
      | none => attrs
    let attrs :=
      match entry.renderBlockingStatus with
      | some rbs => attrs ++ [("resource.render_blocking_status", AttrValue.str rbs)]
      | none => attrs
    let attrs :=
      match env.parseProtocol resourceUrl with
      | some proto =>
        if proto = "" then attrs
        else attrs ++ [("url.scheme", AttrValue.str ((proto.splitOn ":").getLastD ""))]
      | none => attrs
    let attrs :=
      match env.parseHost resourceUrl with
      | some host =>
        if host = "" then attrs
        else attrs ++ [("server.address", AttrValue.str host)]
      | none => attrs
    let attrs := attrs ++ [("url.same_origin",
                            AttrValue.bool (decide (List.IsInfix env.locationOrigin.data resourceUrl.data)))]
    let startTimestamp := timeOrigin + startTime
    let endTimestamp := startTimestamp + duration
    some { name := resourceUrl.replace env.locationOrigin ""
           op := match entry.initiatorType with
                 | some t => if t = "" then "resource.other" else "resource." ++ t
                 | none => "resource.other"
           startTimestamp := startTimestamp
           endTimestamp := endTimestamp
           attributes := attrs }

/-- The spans contributed by one drained entry: the `switch (entry.entryType)`
of the `forEach` body in `addPerformanceEntries`. -/
def entryNewSpans (env : Env) (timeOrigin : ℚ) (e : PerfEntry) : List SyntheticSpan :=
  if e.entryType = "navigation" then _addNavigationSpans e timeOrigin
  else if e.entryType = "mark" ∨ e.entryType = "paint" ∨ e.entryType = "measure" then
    [_addMeasureSpans env e (msToSec e.startTime) (msToSec (max 0 e.duration)) timeOrigin]
  else if e.entryType = "resource" then
    (_addResourceSpans env e e.name (msToSec e.startTime)
      (msToSec (max 0 e.duration)) timeOrigin).toList
  else []

/-- The measurement mutations of one drained entry: the fp/fcp capture inside
the mark/paint/measure case, gated on the first-hidden time. -/
def entryNewMeasurements (env : Env) (m : List (String × Measurement)) (e : PerfEntry) :
    List (String × Measurement) :=
  if e.entryType = "mark" ∨ e.entryType = "paint" ∨ e.entryType = "measure" then
    let shouldRecord := e.startTime < env.firstHiddenTime
    let m1 := if e.name = "first-paint" ∧ shouldRecord
      then setM m "fp" ⟨e.startTime, "millisecond"⟩ else m
    if e.name = "first-contentful-paint" ∧ shouldRecord
      then setM m1 "fcp" ⟨e.startTime, "millisecond"⟩ else m1
  else m

/-- One iteration of the `forEach` over the drained slice, including the
pre-navigation clock-skew skip. -/
def processEntry (env : Env) (op : Option String) (transactionStartTime : Option ℚ)
    (timeOrigin : ℚ) (acc : List (String × Measurement) × List SyntheticSpan)
    (e : PerfEntry) : List (String × Measurement) × List SyntheticSpan :=
  if op = some "navigation" ∧ transactionStartTime.getD 0 ≠ 0 ∧
      timeOrigin + msToSec e.startTime < transactionStartTime.getD 0 then
    acc
  else
    (entryNewMeasurements env acc.1 e, acc.2 ++ entryNewSpans env timeOrigin e)

/-- The slice `performanceEntries.slice(_performanceCursor)` a call processes. -/
def processedSlice (st : SessionState) (log : List PerfEntry) : List PerfEntry :=
  log.drop st.cursor

/-- The full entry-classification loop over the drained slice. -/
def drainPhase (env : Env) (op : Option String) (transactionStartTime : Option ℚ)
    (timeOrigin : ℚ) (measurements : List (String × Measurement))
    (slice : List PerfEntry) : List (String × Measurement) × List SyntheticSpan :=
  slice.foldl (processEntry env op transactionStartTime timeOrigin) (measurements, [])

/-- Embedding of `_trackNavigator` (browserMetrics.ts lines 576-605): connection / device
attributes plus the `connection.rtt` measurement. -/
def _trackNavigator (env : Env) (m : List (String × Measurement)) :
    List (String × Measurement) × List (String × AttrValue) :=
  if env.navigatorPresent = false then (m, [])
  else
    let connAttrs : List (String × AttrValue) :=
      if env.connectionPresent then
        (match env.connectionEffectiveType with
         | some s => if s = "" then [] else [("effectiveConnectionType", AttrValue.str s)]
         | none => []) ++
        (match env.connectionType with
         | some s => if s = "" then [] else [("connectionType", AttrValue.str s)]
         | none => [])
      else []
    let m1 :=
      if env.connectionPresent then
        match env.connectionRtt with
        | some rtt => setM m "connection.rtt" ⟨rtt, "millisecond"⟩
        | none => m
      else m
    let memAttrs : List (String × AttrValue) :=
      match env.deviceMemory with
      | some d => [("deviceMemory", AttrValue.str (toString d ++ " GB"))]
      | none => []
    let hcAttrs : List (String × AttrValue) :=
      match env.hardwareConcurrency with
      | some hc => [("hardwareConcurrency", AttrValue.str (toString hc))]
      | none => []
    (m1, connAttrs ++ memAttrs ++ hcAttrs)

/-- Embedding of `_addTtfbRequestTimeToMeasurements`: the `ttfb.requestTime` from the
navigation entry, only when `requestStart <= responseStart`. -/
def _addTtfbRequestTimeToMeasurements (env : Env) (m : List (String × Measurement)) :
    List (String × Measurement) :=
  match env.navEntry with
  | none => m
  | some nav =>
    if nav.requestStart ≤ nav.responseStart then
      setM m "ttfb.requestTime" ⟨nav.responseStart - nav.requestStart, "millisecond"⟩
    else m

/-- The FID block of the pageload branch: when both `mark.fid` and `fid` are
present, emit the "first input delay" span and delete `mark.fid`. -/
def fidPhase (m : List (String × Measurement)) :
    List SyntheticSpan × List (String × Measurement) :=
  match getM m "mark.fid", getM m "fid" with
  | some fidMark, some fid =>
    ([{ name := "first input delay"
        op := "ui.action"
        startTimestamp := fidMark.value
        endTimestamp := fidMark.value + msToSec fid.value
        attributes := [(SEMANTIC_ATTRIBUTE_SENTRY_ORIGIN,
                        AttrValue.str "auto.ui.browser.metrics")] }],
     delM m "mark.fid")
  | _, _ => ([], m)

/-- The CLS gate: drop `cls` unless `fcp` was recorded and the caller asked
for CLS on the pageload span. -/
def clsGate (recordClsOnPageloadSpan : Bool) (m : List (String × Measurement)) :
    List (String × Measurement) :=
  if memM m "fcp" = false ∨ recordClsOnPageloadSpan = false then delM m "cls" else m

/-- Embedding of `_setWebVitalAttributes`: LCP / CLS debugging attributes. -/
def _setWebVitalAttributes (env : Env) (lcp : Option LcpEntry) (cls : Option ClsEntry) :
    List (String × AttrValue) :=
  (match lcp with
   | some l =>
     (match l.element with
      | some el => [("lcp.element", AttrValue.str (env.htmlTree (some el)))]
      | none => []) ++
     (match l.id with
      | some i => if i = "" then [] else [("lcp.id", AttrValue.str i)]
      | none => []) ++
     (match l.url with
      | some u => if u = "" then [] else [("lcp.url", AttrValue.str (u.trim.take 200))]
      | none => []) ++
     [("lcp.size", AttrValue.num l.size)]
   | none => []) ++
  (match cls with
   | some c =>
     match c.sources with
     | some srcs =>
       srcs.enum.map (fun p =>
         ("cls.source." ++ toString (p.1 + 1), AttrValue.str (env.htmlTree (some p.2))))
     | none => []
   | none => [])

/-- Embedding of `addPerformanceEntries` (browserMetrics.ts lines 287-401): drains the new
slice of the entry log, classifies each entry, advances the cursor to
`max(len - 1, 0)`, tracks navigator data, finalizes measurements for a
pageload span, and resets the session accumulator state. -/
def addPerformanceEntries (env : Env) (spanOp : Option String)
    (transactionStartTime : Option ℚ) (recordClsOnPageloadSpan : Bool)
    (st : SessionState) (log : List PerfEntry) : SessionState × Output :=
  if ¬ (env.perfAvailable = true ∧ env.timeOriginMs ≠ 0) then (st, ⟨[], [], []⟩)
  else
    let timeOrigin := msToSec env.timeOriginMs
    let dres := drainPhase env spanOp transactionStartTime timeOrigin
      st.measurements (processedSlice st log)
    let cursor1 := max (log.length - 1) 0
    let nres := _trackNavigator env dres.1
    if spanOp = some "pageload" then
      let m3 := _addTtfbRequestTimeToMeasurements env nres.1
      let fres := fidPhase m3
      let m5 := clsGate recordClsOnPageloadSpan fres.2
      let writes := m5.map (fun p => (p.1, p.2.value, p.2.unit))
      let attrs := nres.2
        ++ [("performance.timeOrigin", AttrValue.num timeOrigin),
            ("performance.activationStart", AttrValue.num env.activationStart)]
        ++ _setWebVitalAttributes env st.lcpEntry st.clsEntry
      (⟨cursor1, [], none, none⟩, ⟨dres.2 ++ fres.1, writes, attrs⟩)
    else
      (⟨cursor1, [], none, none⟩, ⟨dres.2, [], nres.2⟩)

/-- The handler installed by `startTrackingInteractions` for one `'click'`
entry: the synthesized click span. -/
def interactionClickSpan (env : Env) (e : PerfEntry) : Option SyntheticSpan :=
  if e.name = "click" then
    let startTime := msToSec (env.timeOriginMs + e.startTime)
    let duration := msToSec e.duration
    let attrs : List (String × AttrValue) :=
      [(SEMANTIC_ATTRIBUTE_SENTRY_ORIGIN, AttrValue.str "auto.ui.browser.metrics")]
    let attrs :=
      match env.componentName e.target with
      | some cn => if cn = "" then attrs else attrs ++ [("ui.component_name", AttrValue.str cn)]
      | none => attrs
    some { name := env.htmlTree e.target
           op := "ui.interaction." ++ e.name
           startTimestamp := startTime
           endTimestamp := startTime + duration
           attributes := attrs }
  else none

/-- The handler installed by `startTrackingInteractions` (browserMetrics.ts
lines 185-216): bails out when `getActiveSpan()` is falsy, otherwise starts
one span per `'click'` entry in the delivered batch. -/
def startTrackingInteractionsHandler (env : Env) (activeSpan : Option Unit)
    (entries : List PerfEntry) : List SyntheticSpan :=
  match activeSpan with
  | none => []
  | some _ => entries.filterMap (interactionClickSpan env)

/-! ### Concrete fixtures for counterexamples and witnesses -/

/-- A minimal environment: Performance API available, time origin 1000 ms
(1 s), no navigation entry, no navigator. -/
def env0 : Env := { perfAvailable := true, timeOriginMs := 1000 }

/-- An environment whose navigation entry has `requestStart = 1000` ms and
`responseStart = 2000` ms. -/
def env1 : Env := { perfAvailable := true, timeOriginMs := 1000, navEntry := some ⟨1000, 2000⟩ }

/-- The pristine session state. -/
def st0 : SessionState := ⟨0, [], none, none⟩

/-- A plain `measure` entry. -/
def measureEntry1 : PerfEntry := { entryType := "measure", name := "m1", startTime := 100, duration := 50 }

/-- A `measure` entry that starts before the navigation request start of `env1`. -/
def measureEntryEarly : PerfEntry := { entryType := "measure", name := "early", startTime := 0, duration := 50 }

/-- A `measure` entry with a negative duration, starting before `env1`'s
navigation request start. -/
def measureEntryNegDur : PerfEntry := { entryType := "measure", name := "m2", startTime := 0, duration := -1000 }

/-- A `measure` entry with a negative duration, starting after any request
start of `env0` (which has no navigation entry, so request start is 0). -/
def measureEntryNegDurLate : PerfEntry := { entryType := "measure", name := "m3", startTime := 100, duration := -7 }

/-- A resource entry with `initiatorType: "fetch"`. -/
def resourceFetchEntry : PerfEntry :=
  { entryType := "resource", name := "https://x.test/api", startTime := 5, duration := 7,
    initiatorType := some "fetch", transferSize := some 10 }

/-- A resource entry (initiator `img`) with a negative duration. -/
def resourceImgEntry : PerfEntry :=
  { entryType := "resource", name := "u", startTime := 100, duration := -7,
    initiatorType := some "img" }

/-- The span synthesized for `resourceImgEntry` by the classifier under `env0`. -/
def spanImg : SyntheticSpan :=
  { name := "u", op := "resource.img",
    startTimestamp := 1 + msToSec 100,
    endTimestamp := 1 + msToSec 100 + msToSec (max 0 (-7)),
    attributes := [(SEMANTIC_ATTRIBUTE_SENTRY_ORIGIN, AttrValue.str "auto.resource.browser.metrics"),
                   ("url.same_origin", AttrValue.bool true)] }

/-- A session state holding a `fid` measurement and its `mark.fid` timestamp. -/
def stFid : SessionState :=
  ⟨0, [("fid", ⟨50, "millisecond"⟩), ("mark.fid", ⟨10, "second"⟩)], none, none⟩

end BrowserMetrics

namespace BrowserMetrics

theorem drop_length_sub_one {α : Type} : ∀ l : List α, l.drop (l.length - 1) = l.getLast?.toList
  | [] => rfl
  | [a] => rfl
  | a :: b :: t => by
    have ih := drop_length_sub_one (b :: t)
    simp only [List.length_cons, Nat.add_sub_cancel] at ih ⊢
    rw [List.drop_succ_cons, ih, List.getLast?_cons_cons]

theorem memM_setM_ne (m : List (String × Measurement)) (k k₁ : String) (v : Measurement)
    (h : k₁ ≠ k) : memM (setM m k v) k₁ = memM m k₁ := by
  induction m with
  | nil => simp [setM, memM, beq_iff_eq, Ne.symm h]
  | cons p rest ih =>
    obtain ⟨k₀, v₀⟩ := p
    by_cases hk : k₀ = k
    · subst hk
      simp [setM, memM, beq_iff_eq, Ne.symm h]
    · simp only [setM, if_neg hk, memM, List.any_cons] at *
      rw [ih]

theorem memM_delM_ne (m : List (String × Measurement)) (k k₁ : String) (h : k₁ ≠ k) :
    memM (delM m k) k₁ = memM m k₁ := by
  induction m with
  | nil => rfl
  | cons p rest ih =>
    obtain ⟨k₀, v₀⟩ := p
    simp only [delM, memM, List.filter_cons] at ih ⊢
    by_cases hk : k₀ = k
    · subst hk
      rw [if_neg (by simp)]
      rw [ih]
      have hke : (k₀ == k₁) = false := by
        simp only [beq_eq_false_iff_ne, ne_eq]
        exact fun hh => h hh.symm
      simp [List.any_cons, hke]
    · rw [if_pos (by simpa using hk)]
      simp only [List.any_cons]
      rw [ih]

theorem mem_delM {m : List (String × Measurement)} {k : String} {p : String × Measurement}
    (h : p ∈ delM m k) : p ∈ m ∧ p.1 ≠ k := by
  have h2 := List.mem_filter.mp h
  exact ⟨h2.1, by simpa using h2.2⟩

theorem mem_clsGate {b : Bool} {m : List (String × Measurement)} {p : String × Measurement}
    (h : p ∈ clsGate b m) : p ∈ m := by
  unfold clsGate at h
  split at h
  · exact (mem_delM h).1
  · exact h

theorem clsGate_no_cls {b : Bool} {m : List (String × Measurement)}
    (h : memM m "fcp" = false ∨ b = false) :
    ∀ p ∈ clsGate b m, p.1 ≠ "cls" := by
  intro p hp
  unfold clsGate at hp
  rw [if_pos h] at hp
  exact (mem_delM hp).2

theorem memM_ttfb_fcp (env : Env) (m : List (String × Measurement)) :
    memM (_addTtfbRequestTimeToMeasurements env m) "fcp" = memM m "fcp" := by
  unfold _addTtfbRequestTimeToMeasurements
  rcases hnav : env.navEntry with _ | nav
  · simp only [hnav]
  · simp only [hnav]
    split
    · exact memM_setM_ne m "ttfb.requestTime" "fcp" _ (by decide)
    · rfl

theorem memM_fidPhase_fcp (m : List (String × Measurement)) :
    memM (fidPhase m).2 "fcp" = memM m "fcp" := by
  unfold fidPhase
  rcases h1 : getM m "mark.fid" with _ | fm <;> rcases h2 : getM m "fid" with _ | fv <;>
    first
      | rfl
      | dsimp only
  exact memM_delM_ne m "mark.fid" "fcp" (by decide)

end BrowserMetrics

namespace BrowserMetrics

theorem _addMeasureSpans_op (env : Env) (e : PerfEntry) (s d tO : ℚ) :
    (_addMeasureSpans env e s d tO).op = e.entryType := rfl

theorem _addPerformanceNavigationTiming_op {entry : PerfEntry} {event : String} {tO : ℚ}
    {name : Option String} {eventEnd : Option String} {sp : SyntheticSpan}
    (h : _addPerformanceNavigationTiming entry event tO name eventEnd = some sp) :
    sp.op = "browser." ++ name.getD event := by
  simp only [_addPerformanceNavigationTiming] at h
  split at h
  · exact absurd h (by simp)
  · cases h
    rfl

theorem _addRequest_op {entry : PerfEntry} {tO : ℚ} {sp : SyntheticSpan}
    (h : sp ∈ _addRequest entry tO) :
    sp.op = "browser.request" ∨ sp.op = "browser.response" := by
  simp only [_addRequest] at h
  split at h
  · simp only [List.mem_cons, List.not_mem_nil, or_false] at h
    rcases h with rfl | rfl
    · exact Or.inl rfl
    · exact Or.inr rfl
  · exact absurd h (List.not_mem_nil sp)

theorem _addNavigationSpans_op {entry : PerfEntry} {tO : ℚ} {sp : SyntheticSpan}
    (h : sp ∈ _addNavigationSpans entry tO) : sp.op ≠ "ui.action" := by
  unfold _addNavigationSpans at h
  simp only [List.mem_append] at h
  rcases h with ((((h | h) | h) | h) | h)
  · rcases List.mem_filterMap.mp h with ⟨ev, hev, hsp⟩
    have hop := _addPerformanceNavigationTiming_op hsp
    simp only [List.mem_cons, List.not_mem_nil, or_false] at hev
    rcases hev with rfl | rfl | rfl | rfl | rfl <;> rw [hop] <;> decide
  · have hsp := Option.mem_def.mp (Option.mem_toList.mp h)
    rw [_addPerformanceNavigationTiming_op hsp]
    decide
  · have hsp := Option.mem_def.mp (Option.mem_toList.mp h)
    rw [_addPerformanceNavigationTiming_op hsp]
    decide
  · have hsp := Option.mem_def.mp (Option.mem_toList.mp h)
    rw [_addPerformanceNavigationTiming_op hsp]
    decide
  · rcases _addRequest_op h with hop | hop <;> rw [hop] <;> decide

theorem string_ne_of_length_pos {t : String} (h : t ≠ "") :
    ("resource." ++ t) ≠ "ui.action" := by
  intro heq
  have hlen := congrArg String.length heq
  rw [String.length_append] at hlen
  have h9 : "resource.".length = 9 := by decide
  have h9b : "ui.action".length = 9 := by decide
  rw [h9, h9b] at hlen
  have hz : t.length = 0 := by omega
  have hd : t.data.length = 0 := by rw [String.length_data]; exact hz
  have hnil : t.data = [] := List.length_eq_zero.mp hd
  apply h
  cases t
  simp only [String.data] at hnil
  simp [hnil]

theorem _addResourceSpans_op {env : Env} {e : PerfEntry} {url : String} {s d tO : ℚ}
    {sp : SyntheticSpan} (h : _addResourceSpans env e url s d tO = some sp) :
    sp.op ≠ "ui.action" := by
  unfold _addResourceSpans at h
  split at h
  · exact absurd h (by simp)
  · cases h
    show (match e.initiatorType with
          | some t => if t = "" then "resource.other" else "resource." ++ t
          | none => "resource.other") ≠ "ui.action"
    rcases hit : e.initiatorType with _ | t
    · decide
    · dsimp only
      by_cases ht : t = ""
      · rw [if_pos ht]
        decide
      · rw [if_neg ht]
        exact string_ne_of_length_pos ht

theorem entryNewSpans_op {env : Env} {tO : ℚ} {e : PerfEntry} {sp : SyntheticSpan}
    (h : sp ∈ entryNewSpans env tO e) : sp.op ≠ "ui.action" := by
  unfold entryNewSpans at h
  split at h
  · exact _addNavigationSpans_op h
  · split at h
    · next _ hmpm =>
      simp only [List.mem_singleton] at h
      subst h
      rw [_addMeasureSpans_op]
      rcases hmpm with h1 | h1 | h1 <;> rw [h1] <;> decide
    · split at h
      · have hsp := Option.mem_def.mp (Option.mem_toList.mp h)
        exact _addResourceSpans_op hsp
      · exact absurd h (List.not_mem_nil sp)

theorem foldl_processEntry_spans_op (env : Env) (op : Option String) (tst : Option ℚ)
    (tO : ℚ) :
    ∀ (slice : List PerfEntry) (acc : List (String × Measurement) × List SyntheticSpan),
      (∀ sp ∈ acc.2, sp.op ≠ "ui.action") →
      ∀ sp ∈ (slice.foldl (processEntry env op tst tO) acc).2, sp.op ≠ "ui.action"
  | [], acc, hacc => hacc
  | e :: rest, acc, hacc => by
    refine foldl_processEntry_spans_op env op tst tO rest _ ?_
    intro sp hsp
    unfold processEntry at hsp
    split at hsp
    · exact hacc sp hsp
    · dsimp only at hsp
      rcases List.mem_append.mp hsp with hsp | hsp
      · exact hacc sp hsp
      · exact entryNewSpans_op hsp

theorem drainPhase_spans_op (env : Env) (op : Option String) (tst : Option ℚ) (tO : ℚ)
    (ms : List (String × Measurement)) (slice : List PerfEntry) :
    ∀ sp ∈ (drainPhase env op tst tO ms slice).2, sp.op ≠ "ui.action" :=
  foldl_processEntry_spans_op env op tst tO slice (ms, [])
    (fun sp h => absurd h (List.not_mem_nil sp))

end BrowserMetrics

namespace BrowserMetrics

/-- C8 (confirmed): a resource entry whose initiatorType is fetch or xmlhttprequest
never produces a span from `_addResourceSpans`, regardless of all other fields. -/
theorem C8_fetch_xhr_suppression (env : Env) (e : PerfEntry) (url : String) (s d tO : ℚ)
    (h : e.initiatorType = some "fetch" ∨ e.initiatorType = some "xmlhttprequest") :
    _addResourceSpans env e url s d tO = none := by
  unfold _addResourceSpans
  rw [if_pos h.symm]

/-- C8 witness: the suppression theorem applied at a concrete fetch-initiated entry. -/
theorem C8_witness :
    _addResourceSpans env0 resourceFetchEntry "https://x.test/api" 5 7 1 = none :=
  C8_fetch_xhr_suppression env0 resourceFetchEntry "https://x.test/api" 5 7 1 (Or.inl rfl)

/-- C10 (confirmed): the interaction handler installed by startTrackingInteractions
returns without starting any span when getActiveSpan() is falsy, for every batch
of event entries, even ones named click. -/
theorem C10_no_active_span (env : Env) (entries : List PerfEntry) :
    startTrackingInteractionsHandler env none entries = [] := rfl

/-- C5 (corrected): after every `addPerformanceEntries` call the measurement
accumulator and the retained LCP/CLS entries are reset to empty/undefined, but the
entry cursor is NOT reset: it is advanced to `max(len(log)-1, 0)`. -/
theorem C5_amended (env : Env) (spanOp : Option String) (tst : Option ℚ) (rcls : Bool)
    (st : SessionState) (log : List PerfEntry)
    (h : env.perfAvailable = true ∧ env.timeOriginMs ≠ 0) :
    ((addPerformanceEntries env spanOp tst rcls st log).1).measurements = [] ∧
    ((addPerformanceEntries env spanOp tst rcls st log).1).lcpEntry = none ∧
    ((addPerformanceEntries env spanOp tst rcls st log).1).clsEntry = none ∧
    ((addPerformanceEntries env spanOp tst rcls st log).1).cursor = max (log.length - 1) 0 := by
  unfold addPerformanceEntries
  rw [if_neg (not_not_intro h)]
  dsimp only
  by_cases hop : spanOp = some "pageload"
  · rw [if_pos hop]
    exact ⟨rfl, rfl, rfl, rfl⟩
  · rw [if_neg hop]
    exact ⟨rfl, rfl, rfl, rfl⟩

/-- C5 counterexample: after finalizing a pageload over a two-entry log the cursor
is 1, not reset to 0, refuting the claim that every TrackingSession field is reset. -/
theorem C5_counterexample :
    ((addPerformanceEntries env0 (some "pageload") none true st0
      [measureEntry1, measureEntry1]).1).cursor ≠ 0 := by
  decide

/-- C5 witness: the amended reset theorem applied at a concrete two-entry log. -/
theorem C5_amended_witness :
    ((addPerformanceEntries env0 (some "pageload") none true st0 [measureEntry1, measureEntry1]).1).measurements = [] ∧
    ((addPerformanceEntries env0 (some "pageload") none true st0 [measureEntry1, measureEntry1]).1).lcpEntry = none ∧
    ((addPerformanceEntries env0 (some "pageload") none true st0 [measureEntry1, measureEntry1]).1).clsEntry = none ∧
    ((addPerformanceEntries env0 (some "pageload") none true st0 [measureEntry1, measureEntry1]).1).cursor = max ([measureEntry1, measureEntry1].length - 1) 0 :=
  C5_amended env0 (some "pageload") none true st0 [measureEntry1, measureEntry1] ⟨rfl, by decide⟩

/-- C1 (corrected): after any `addPerformanceEntries` call, the slice a second call
with no new entries would process is exactly the final log entry (empty only for an
empty log): the cursor `max(len-1, 0)` re-exposes the last entry, so only entries
strictly before the last are never reprocessed. -/
theorem C1_amended (env : Env) (spanOp : Option String) (tst : Option ℚ) (rcls : Bool)
    (st : SessionState) (log : List PerfEntry)
    (h : env.perfAvailable = true ∧ env.timeOriginMs ≠ 0) :
    processedSlice ((addPerformanceEntries env spanOp tst rcls st log).1) log =
      log.getLast?.toList := by
  have hcur : ((addPerformanceEntries env spanOp tst rcls st log).1).cursor
      = max (log.length - 1) 0 := by
    unfold addPerformanceEntries
    rw [if_neg (not_not_intro h)]
    dsimp only
    by_cases hop : spanOp = some "pageload"
    · rw [if_pos hop]
    · rw [if_neg hop]
  unfold processedSlice
  rw [hcur, max_eq_left (Nat.zero_le _), drop_length_sub_one]

/-- C1 counterexample: with a one-entry log, the second call processes the same
entry again (non-empty slice, one more span), refuting idempotent draining. -/
theorem C1_counterexample :
    processedSlice ((addPerformanceEntries env0 (some "pageload") none true st0
        [measureEntry1]).1) [measureEntry1] = [measureEntry1] ∧
    ((addPerformanceEntries env0 (some "pageload") none true
        ((addPerformanceEntries env0 (some "pageload") none true st0 [measureEntry1]).1)
        [measureEntry1]).2.spans).length = 1 := by
  decide

/-- C1 witness: the amended cursor theorem applied at a concrete one-entry log. -/
theorem C1_amended_witness :
    processedSlice ((addPerformanceEntries env0 (some "pageload") none true st0
        [measureEntry1]).1) [measureEntry1] = [measureEntry1].getLast?.toList :=
  C1_amended env0 (some "pageload") none true st0 [measureEntry1] ⟨rfl, by decide⟩

end BrowserMetrics

namespace BrowserMetrics

theorem navigator_attr_key {env : Env} {m : List (String × Measurement)}
    {a : String × AttrValue} (ha : a ∈ (_trackNavigator env m).2) :
    a.1 = "effectiveConnectionType" ∨ a.1 = "connectionType" ∨
    a.1 = "deviceMemory" ∨ a.1 = "hardwareConcurrency" := by
  unfold _trackNavigator at ha
  split at ha
  · cases ha
  · dsimp only at ha
    rcases List.mem_append.mp ha with ha | ha
    · rcases List.mem_append.mp ha with ha | ha
      · split at ha
        · rcases List.mem_append.mp ha with ha | ha
          · rcases hET : env.connectionEffectiveType with _ | s
            · rw [hET] at ha
              cases ha
            · rw [hET] at ha
              dsimp only at ha
              split at ha
              · cases ha
              · simp only [List.mem_singleton] at ha
                subst ha
                exact Or.inl rfl
          · rcases hCT : env.connectionType with _ | s
            · rw [hCT] at ha
              cases ha
            · rw [hCT] at ha
              dsimp only at ha
              split at ha
              · cases ha
              · simp only [List.mem_singleton] at ha
                subst ha
                exact Or.inr (Or.inl rfl)
        · cases ha
      · rcases hDM : env.deviceMemory with _ | d
        · rw [hDM] at ha
          cases ha
        · rw [hDM] at ha
          simp only [List.mem_singleton] at ha
          subst ha
          exact Or.inr (Or.inr (Or.inl rfl))
    · rcases hHC : env.hardwareConcurrency with _ | hc
      · rw [hHC] at ha
        cases ha
      · rw [hHC] at ha
        simp only [List.mem_singleton] at ha
        subst ha
        exact Or.inr (Or.inr (Or.inr rfl))

/-- C9 (confirmed): for a span whose op is not pageload, `addPerformanceEntries`
writes no measurements onto the span, attaches only navigator attributes (never
performance.timeOrigin / performance.activationStart / LCP / CLS debug attributes),
yet still clears the accumulator and the retained LCP/CLS entries. -/
theorem C9_non_pageload (env : Env) (spanOp : Option String) (tst : Option ℚ) (rcls : Bool)
    (st : SessionState) (log : List PerfEntry)
    (h : env.perfAvailable = true ∧ env.timeOriginMs ≠ 0)
    (hop : spanOp ≠ some "pageload") :
    (addPerformanceEntries env spanOp tst rcls st log).2.measurementWrites = [] ∧
    ((addPerformanceEntries env spanOp tst rcls st log).2.attributeWrites.all
      (fun a => a.1 == "effectiveConnectionType" || a.1 == "connectionType" ||
        a.1 == "deviceMemory" || a.1 == "hardwareConcurrency")) = true ∧
    (addPerformanceEntries env spanOp tst rcls st log).1.measurements = [] ∧
    (addPerformanceEntries env spanOp tst rcls st log).1.lcpEntry = none ∧
    (addPerformanceEntries env spanOp tst rcls st log).1.clsEntry = none := by
  unfold addPerformanceEntries
  rw [if_neg (not_not_intro h)]
  dsimp only
  rw [if_neg hop]
  refine ⟨rfl, ?_, rfl, rfl, rfl⟩
  rw [List.all_eq_true]
  intro a ha
  rcases navigator_attr_key ha with h1 | h1 | h1 | h1 <;> rw [h1] <;> rfl

/-- C9 witness: the non-pageload theorem applied at a concrete navigation call. -/
theorem C9_witness :
    (addPerformanceEntries env0 (some "navigation") none true st0 [measureEntry1]).2.measurementWrites = [] ∧
    ((addPerformanceEntries env0 (some "navigation") none true st0 [measureEntry1]).2.attributeWrites.all
      (fun a => a.1 == "effectiveConnectionType" || a.1 == "connectionType" ||
        a.1 == "deviceMemory" || a.1 == "hardwareConcurrency")) = true ∧
    (addPerformanceEntries env0 (some "navigation") none true st0 [measureEntry1]).1.measurements = [] ∧
    (addPerformanceEntries env0 (some "navigation") none true st0 [measureEntry1]).1.lcpEntry = none ∧
    (addPerformanceEntries env0 (some "navigation") none true st0 [measureEntry1]).1.clsEntry = none :=
  C9_non_pageload env0 (some "navigation") none true st0 [measureEntry1] ⟨rfl, by decide⟩ (by decide)

end BrowserMetrics

namespace BrowserMetrics

/-- C6 (confirmed): when the accumulator at finalization holds no fcp measurement,
or CLS on the pageload span is not requested, no cls measurement is written by the
pageload finalize of `addPerformanceEntries`. -/
theorem C6_cls_gating (env : Env) (tst : Option ℚ) (rcls : Bool) (st : SessionState)
    (log : List PerfEntry) (p : String × ℚ × String)
    (h : env.perfAvailable = true ∧ env.timeOriginMs ≠ 0)
    (hgate : memM ((_trackNavigator env (drainPhase env (some "pageload") tst
        (msToSec env.timeOriginMs) st.measurements (processedSlice st log)).1).1) "fcp" = false ∨
      rcls = false)
    (hp : p ∈ (addPerformanceEntries env (some "pageload") tst rcls
        st log).2.measurementWrites) :
    p.1 ≠ "cls" := by
  unfold addPerformanceEntries at hp
  rw [if_neg (not_not_intro h)] at hp
  dsimp only at hp
  rw [if_pos rfl] at hp
  dsimp only at hp
  rcases List.mem_map.mp hp with ⟨q, hq, rfl⟩
  have hfcp : memM (fidPhase (_addTtfbRequestTimeToMeasurements env
      ((_trackNavigator env (drainPhase env (some "pageload") tst
        (msToSec env.timeOriginMs) st.measurements (processedSlice st log)).1).1))).2 "fcp" = false
      ∨ rcls = false := by
    rcases hgate with hg | hg
    · left
      rw [memM_fidPhase_fcp, memM_ttfb_fcp]
      exact hg
    · right
      exact hg
  exact clsGate_no_cls hfcp q hq

/-- C6 witness: the CLS gate theorem applied at a concrete finalize whose
accumulator holds a ttfb measurement and no fcp. -/
theorem C6_witness :
    (("ttfb", (10 : ℚ), "millisecond") : String × ℚ × String).1 ≠ "cls" :=
  C6_cls_gating env0 none true ⟨0, [("ttfb", ⟨10, "millisecond"⟩)], none, none⟩ []
    ("ttfb", (10 : ℚ), "millisecond") ⟨rfl, by decide⟩ (Or.inl (by decide)) (by decide)

/-- C7 (confirmed): when both fid and mark.fid are present at finalize of a
pageload span, exactly one first-input-delay span with op ui.action is emitted over
[mark.fid, mark.fid + fid/1000], and mark.fid is deleted before the measurement
writes. -/
theorem C7_fid_span (env : Env) (tst : Option ℚ) (rcls : Bool) (st : SessionState)
    (log : List PerfEntry) (fm fv : Measurement)
    (h : env.perfAvailable = true ∧ env.timeOriginMs ≠ 0)
    (hm : getM (_addTtfbRequestTimeToMeasurements env ((_trackNavigator env (drainPhase env
        (some "pageload") tst (msToSec env.timeOriginMs) st.measurements
        (processedSlice st log)).1).1)) "mark.fid" = some fm)
    (hf : getM (_addTtfbRequestTimeToMeasurements env ((_trackNavigator env (drainPhase env
        (some "pageload") tst (msToSec env.timeOriginMs) st.measurements
        (processedSlice st log)).1).1)) "fid" = some fv) :
    ((addPerformanceEntries env (some "pageload") tst rcls st log).2.spans.filter
        (fun sp => sp.op == "ui.action")) =
      [⟨"first input delay", "ui.action", fm.value, fm.value + msToSec fv.value,
        [(SEMANTIC_ATTRIBUTE_SENTRY_ORIGIN, AttrValue.str "auto.ui.browser.metrics")]⟩] ∧
    ((addPerformanceEntries env (some "pageload") tst rcls st log).2.measurementWrites.all
        (fun p => p.1 != "mark.fid")) = true := by
  have hfid : fidPhase (_addTtfbRequestTimeToMeasurements env ((_trackNavigator env
      (drainPhase env (some "pageload") tst (msToSec env.timeOriginMs) st.measurements
        (processedSlice st log)).1).1)) =
      ([⟨"first input delay", "ui.action", fm.value, fm.value + msToSec fv.value,
        [(SEMANTIC_ATTRIBUTE_SENTRY_ORIGIN, AttrValue.str "auto.ui.browser.metrics")]⟩],
       delM (_addTtfbRequestTimeToMeasurements env ((_trackNavigator env
        (drainPhase env (some "pageload") tst (msToSec env.timeOriginMs) st.measurements
          (processedSlice st log)).1).1)) "mark.fid") := by
    unfold fidPhase
    rw [hm, hf]
  unfold addPerformanceEntries
  rw [if_neg (not_not_intro h)]
  dsimp only
  rw [if_pos rfl]
  dsimp only
  rw [hfid]
  constructor
  · rw [List.filter_append]
    have hdrain : ((drainPhase env (some "pageload") tst (msToSec env.timeOriginMs)
        st.measurements (processedSlice st log)).2.filter
          (fun sp => sp.op == "ui.action")) = [] := by
      rw [List.filter_eq_nil_iff]
      intro sp hsp
      simp only [beq_iff_eq]
      exact drainPhase_spans_op env (some "pageload") tst (msToSec env.timeOriginMs)
        st.measurements (processedSlice st log) sp hsp
    rw [hdrain]
    rfl
  · rw [List.all_eq_true]
    intro x hx
    rcases List.mem_map.mp hx with ⟨q, hq, rfl⟩
    have hqd := mem_delM (mem_clsGate hq)
    simpa using hqd.2

end BrowserMetrics

namespace BrowserMetrics

theorem _addResourceSpans_duration {env : Env} {e : PerfEntry} {url : String} {s d tO : ℚ}
    {sp : SyntheticSpan} (h : _addResourceSpans env e url s d tO = some sp) :
    sp.endTimestamp - sp.startTimestamp = d := by
  unfold _addResourceSpans at h
  split at h
  · exact absurd h (by simp)
  · cases h
    dsimp only
    ring

theorem _addMeasureSpans_duration {env : Env} {e : PerfEntry} {s d tO : ℚ}
    (hle : msToSec (navRequestStart env) ≤ s) :
    (_addMeasureSpans env e s d tO).endTimestamp
      - (_addMeasureSpans env e s d tO).startTimestamp = d := by
  unfold _addMeasureSpans
  dsimp only
  rw [max_eq_left hle]
  ring

/-- C4 (corrected): a span synthesized by the classifier from an entry with
negative duration has duration exactly 0 when the entry is a resource entry, or a
mark/paint/measure entry whose startTime is at least the navigation requestStart;
when start pinning applies, the duration can be negative. -/
theorem C4_amended (env : Env) (op : Option String) (tst : Option ℚ) (timeOrigin : ℚ)
    (acc : List (String × Measurement) × List SyntheticSpan) (e : PerfEntry)
    (sp : SyntheticSpan) (hdur : e.duration < 0)
    (hok : e.entryType = "resource" ∨
      ((e.entryType = "mark" ∨ e.entryType = "paint" ∨ e.entryType = "measure") ∧
        navRequestStart env ≤ e.startTime))
    (hsp : sp ∈ (processEntry env op tst timeOrigin acc e).2) :
    sp ∈ acc.2 ∨ sp.endTimestamp - sp.startTimestamp = 0 := by
  have hd0 : msToSec (max 0 e.duration) = 0 := by
    rw [max_eq_left hdur.le]
    simp [msToSec]
  unfold processEntry at hsp
  split at hsp
  · exact Or.inl hsp
  · dsimp only at hsp
    rcases List.mem_append.mp hsp with hsp | hsp
    · exact Or.inl hsp
    · right
      unfold entryNewSpans at hsp
      rcases hok with hres | ⟨hmpm, hle⟩
      · simp only [hres, reduceIte] at hsp
        have hsome := Option.mem_def.mp (Option.mem_toList.mp hsp)
        rw [_addResourceSpans_duration hsome]
        exact hd0
      · have hmono : msToSec (navRequestStart env) ≤ msToSec e.startTime := by
          unfold msToSec
          exact (div_le_div_iff_of_pos_right (by norm_num)).mpr hle
        rcases hmpm with hm | hm | hm <;>
          simp [hm] at hsp <;>
          subst hsp <;>
          rw [_addMeasureSpans_duration hmono] <;>
          exact hd0

/-- C4 counterexample: a measure entry with duration -1000 ms and startTime 0
before requestStart 1000 ms yields a span of duration -1 s, not 0, refuting the
unconditional duration clamp for measure entries. -/
theorem C4_counterexample :
    ((processEntry env1 (some "pageload") none (msToSec env1.timeOriginMs) ([], [])
        measureEntryNegDur).2.map
      (fun sp => sp.endTimestamp - sp.startTimestamp)) = [-1] := by
  norm_num [processEntry, entryNewSpans, entryNewMeasurements, _addMeasureSpans, msToSec,
    navRequestStart, env1, measureEntryNegDur]
  simp
  norm_num

/-- C4 witness: the amended clamp theorem applied at a concrete negative-duration
resource entry. -/
theorem C4_amended_witness :
    spanImg ∈ ([] : List SyntheticSpan) ∨
      spanImg.endTimestamp - spanImg.startTimestamp = 0 :=
  C4_amended env0 (some "pageload") none 1 ([], []) resourceImgEntry spanImg
    (by norm_num [resourceImgEntry]) (Or.inl rfl)
    (by simp [processEntry, entryNewSpans, entryNewMeasurements, _addResourceSpans,
      setResourceEntrySizeData, resourceImgEntry, env0, spanImg, msToSec,
      show "u".replace "" "" = "u" from rfl])

end BrowserMetrics

namespace BrowserMetrics

/-- C3 (corrected): a measure entry starting before the navigation requestStart is
re-pinned to requestStart and flagged, but the extra attribute records the PINNED
start timestamp (equal to the span start), not the original raw timestamp. -/
theorem C3_amended (env : Env) (entry : PerfEntry) (startTime duration timeOrigin : ℚ)
    (nav : NavEntry) (hn : env.navEntry = some nav)
    (hlt : startTime < msToSec nav.requestStart) :
    (_addMeasureSpans env entry startTime duration timeOrigin).startTimestamp =
      timeOrigin + msToSec nav.requestStart ∧
    ("sentry.browser.measure_happened_before_request", AttrValue.bool true) ∈
      (_addMeasureSpans env entry startTime duration timeOrigin).attributes ∧
    ("sentry.browser.measure_start_time",
      AttrValue.num (timeOrigin + msToSec nav.requestStart)) ∈
      (_addMeasureSpans env entry startTime duration timeOrigin).attributes := by
  have hreq : navRequestStart env = nav.requestStart := by
    unfold navRequestStart
    rw [hn]
  have hmax : max startTime (msToSec (navRequestStart env)) = msToSec nav.requestStart := by
    rw [hreq]
    exact max_eq_right hlt.le
  have hne : timeOrigin + max startTime (msToSec (navRequestStart env)) ≠
      timeOrigin + startTime := by
    rw [hmax]
    intro heq
    exact absurd (add_left_cancel heq).symm hlt.ne
  unfold _addMeasureSpans
  dsimp only
  rw [if_pos hne, hmax]
  refine ⟨rfl, ?_, ?_⟩
  · simp
  · simp

/-- C3 counterexample: for a measure entry pinned from raw timestamp 1 s to 2 s,
no attribute of the synthesized span carries the raw value 1 s, refuting the claim
that the original timestamp is recorded. -/
theorem C3_counterexample :
    (_addMeasureSpans env1 measureEntryEarly (msToSec measureEntryEarly.startTime)
        (msToSec (max 0 measureEntryEarly.duration)) (msToSec env1.timeOriginMs)).startTimestamp =
      msToSec env1.timeOriginMs + msToSec 1000 ∧
    AttrValue.num (msToSec env1.timeOriginMs + msToSec measureEntryEarly.startTime) ∉
      ((_addMeasureSpans env1 measureEntryEarly (msToSec measureEntryEarly.startTime)
        (msToSec (max 0 measureEntryEarly.duration)) (msToSec env1.timeOriginMs)).attributes.map
        Prod.snd) := by
  constructor
  · norm_num [_addMeasureSpans, msToSec, navRequestStart, env1, measureEntryEarly]
  · norm_num [_addMeasureSpans, msToSec, navRequestStart, env1, measureEntryEarly,
      SEMANTIC_ATTRIBUTE_SENTRY_ORIGIN]
    exact ⟨by decide, by decide⟩

/-- C3 witness: the amended pinning theorem applied at a concrete early measure
entry. -/
theorem C3_amended_witness :
    (_addMeasureSpans env1 measureEntryEarly 0 (1/20) 1).startTimestamp =
      1 + msToSec (NavEntry.mk 1000 2000).requestStart ∧
    ("sentry.browser.measure_happened_before_request", AttrValue.bool true) ∈
      (_addMeasureSpans env1 measureEntryEarly 0 (1/20) 1).attributes ∧
    ("sentry.browser.measure_start_time",
      AttrValue.num (1 + msToSec (NavEntry.mk 1000 2000).requestStart)) ∈
      (_addMeasureSpans env1 measureEntryEarly 0 (1/20) 1).attributes :=
  C3_amended env1 measureEntryEarly 0 (1/20) 1 ⟨1000, 2000⟩ rfl (by norm_num [msToSec])

theorem _trackNavigator_fst_of_rtt_none {env : Env}
    (hrtt : env.connectionRtt = none) (m : List (String × Measurement)) :
    (_trackNavigator env m).1 = m := by
  unfold _trackNavigator
  split
  · rfl
  · dsimp only
    rw [hrtt]
    split <;> rfl

theorem ttfb_of_navEntry_none {env : Env} (hnav : env.navEntry = none)
    (m : List (String × Measurement)) :
    _addTtfbRequestTimeToMeasurements env m = m := by
  unfold _addTtfbRequestTimeToMeasurements
  rw [hnav]

/-- C2 (corrected): a second `addPerformanceEntries` call on a session reset by a
first call produces no spans and writes no measurements provided the log is empty
and the environment supplies no navigation entry and no connection rtt. -/
theorem C2_amended (env : Env) (spanOp1 : Option String) (tst : Option ℚ) (rcls : Bool)
    (st : SessionState)
    (h : env.perfAvailable = true ∧ env.timeOriginMs ≠ 0)
    (hnav : env.navEntry = none) (hrtt : env.connectionRtt = none) :
    ((addPerformanceEntries env (some "pageload") tst rcls
        ((addPerformanceEntries env spanOp1 tst rcls st []).1) []).2).spans = [] ∧
    ((addPerformanceEntries env (some "pageload") tst rcls
        ((addPerformanceEntries env spanOp1 tst rcls st []).1) []).2).measurementWrites = [] := by
  have hs1 : (addPerformanceEntries env spanOp1 tst rcls st []).1 = ⟨0, [], none, none⟩ := by
    unfold addPerformanceEntries
    rw [if_neg (not_not_intro h)]
    dsimp only
    by_cases hop : spanOp1 = some "pageload"
    · rw [if_pos hop]
      rfl
    · rw [if_neg hop]
      rfl
  rw [hs1]
  unfold addPerformanceEntries
  rw [if_neg (not_not_intro h)]
  dsimp only
  rw [if_pos rfl]
  dsimp only
  rw [show processedSlice ⟨0, [], none, none⟩ ([] : List PerfEntry) = [] from rfl]
  rw [show drainPhase env (some "pageload") tst (msToSec env.timeOriginMs) [] [] = ([], [])
    from rfl]
  dsimp only
  rw [_trackNavigator_fst_of_rtt_none hrtt, ttfb_of_navEntry_none hnav]
  rw [show fidPhase ([] : List (String × Measurement)) = ([], []) from rfl]
  dsimp only
  rw [show clsGate rcls ([] : List (String × Measurement)) = [] from rfl]
  exact ⟨rfl, rfl⟩

/-- C2 counterexample: after a first pageload call resets the session, a second
call over the same one-entry log still emits a span (the reprocessed final entry),
refuting idempotent double-finalize. -/
theorem C2_counterexample :
    ((addPerformanceEntries env0 (some "pageload") none true st0 [measureEntry1]).1).measurements
      = [] ∧
    ((addPerformanceEntries env0 (some "pageload") none true st0 [measureEntry1]).1).lcpEntry
      = none ∧
    ((addPerformanceEntries env0 (some "pageload") none true
        ((addPerformanceEntries env0 (some "pageload") none true st0 [measureEntry1]).1)
        [measureEntry1]).2.spans).length = 1 := by
  decide

/-- C2 witness: the amended double-finalize theorem applied with an empty log
under `env0`. -/
theorem C2_amended_witness :
    ((addPerformanceEntries env0 (some "pageload") none true
        ((addPerformanceEntries env0 (some "pageload") none true st0 []).1) []).2).spans = [] ∧
    ((addPerformanceEntries env0 (some "pageload") none true
        ((addPerformanceEntries env0 (some "pageload") none true st0 []).1) []).2).measurementWrites
      = [] :=
  C2_amended env0 (some "pageload") none true st0 ⟨rfl, by decide⟩ rfl rfl

/-- C7 witness: the FID theorem applied with mark.fid = 10 s and fid = 50 ms,
yielding the span [10, 10.05]. -/
theorem C7_witness :
    ((addPerformanceEntries env0 (some "pageload") none true stFid []).2.spans.filter
        (fun sp => sp.op == "ui.action")) =
      [⟨"first input delay", "ui.action", (Measurement.mk 10 "second").value,
        (Measurement.mk 10 "second").value + msToSec (Measurement.mk 50 "millisecond").value,
        [(SEMANTIC_ATTRIBUTE_SENTRY_ORIGIN, AttrValue.str "auto.ui.browser.metrics")]⟩] ∧
    ((addPerformanceEntries env0 (some "pageload") none true stFid []).2.measurementWrites.all
        (fun p => p.1 != "mark.fid")) = true :=
  C7_fid_span env0 none true stFid [] ⟨10, "second"⟩ ⟨50, "millisecond"⟩
    ⟨rfl, by decide⟩ (by decide) (by decide)

end BrowserMetrics
